import Mathlib

/-!
# EIP-7702 Delegation Code Inspector — formal model

Shallow embedding of `scripts/check-delegation.ts` from the
`eip-7702-revoke-delegation` repository.

Modelling conventions:
* JavaScript strings are modelled as `List Char` (the scripts only handle
  ASCII hex strings, so JS UTF-16 code units coincide with characters).
* The viem RPC call `client.getCode({address})` is an external collaborator;
  it is modelled as an oracle parameter
  `getCode : List Char → Except (List Char) (Option (List Char))`
  (an error message, or the code string — `none` models `undefined`).
* `checkDelegation` can throw at exactly two sites: the unknown-network
  check and the catch-all wrapper around the RPC call.  These two throw
  sites are modelled by the inductive `CheckError`, each constructor
  carrying the thrown `Error` message.
* JS `code.slice(8, 48)` on strings is `(code.drop 8).take 40`;
  `code.toLowerCase()` is `code.map Char.toLower`;
  `code.toLowerCase().startsWith(s)` is `s.isPrefixOf (code.map Char.toLower)`.
-/

/-- Convert a Lean string literal to the `List Char` model of a JS string. -/
def str (s : String) : List Char := s.data

/-- The constant `DELEGATION_INDICATOR = '0xef0100'` from the source. -/
def DELEGATION_INDICATOR : List Char := ['0', 'x', 'e', 'f', '0', '1', '0', '0']

/-- The empty-code marker `'0x'` returned by `getCode` for code-less accounts. -/
def emptyCodeMarker : List Char := ['0', 'x']

/-- A network entry of the `networks` table (`{chain, rpcUrl}` in the source;
only the chain id is relevant to the checked claims — the `rpcUrl` comes from
the environment and is part of the transport collaborator). -/
structure NetworkConfig where
  chainId : Nat
  deriving Repr, DecidableEq

/-- The `networks` record lookup `networks[networkName]` from the source:
four fixed keys `mainnet`, `sepolia`, `base`, `baseSepolia` (chain ids from
viem's chain definitions). -/
def lookupNetwork (networkName : List Char) : Option NetworkConfig :=
  if networkName = str "mainnet" then some ⟨1⟩
  else if networkName = str "sepolia" then some ⟨11155111⟩
  else if networkName = str "base" then some ⟨8453⟩
  else if networkName = str "baseSepolia" then some ⟨84532⟩
  else none

/-- The key list `Object.keys(networks)` from the source. -/
def networkNames : List (List Char) :=
  [str "mainnet", str "sepolia", str "base", str "baseSepolia"]

/-- The result object built by `checkDelegation` /
`checkMultipleDelegations`.  Optional fields model JS fields that are absent
on some of the result object literals in the source. -/
structure DelegationResult where
  isDelegated : Bool
  address : List Char
  network : List Char
  delegatedTo : Option (List Char) := none
  code : Option (List Char) := none
  message : Option (List Char) := none
  error : Option (List Char) := none
  deriving Repr, DecidableEq

/-- The two throw sites of `checkDelegation`, with the thrown message. -/
inductive CheckError where
  | unknownNetwork (msg : List Char)
  | transport (msg : List Char)
  deriving Repr, DecidableEq

/-- The message `error.message` of a thrown `CheckError`. -/
def CheckError.message : CheckError → List Char
  | .unknownNetwork m => m
  | .transport m => m

/-- The message of the unknown-network throw: the template literal
interpolating the network name and the joined key list of the registry. -/
def unknownNetworkMsg (networkName : List Char) : List Char :=
  str "Unknown network: " ++ networkName ++
    str ". Available networks: " ++ str "mainnet, sepolia, base, baseSepolia"

/-- The RPC collaborator: given an address, an error message or the account
code (`none` models an `undefined` code). -/
def ChainReader : Type := List Char → Except (List Char) (Option (List Char))

/-- The pure core of `checkDelegation` (source lines 53–90): the decision made
on the fetched `code` string.  Mirrors the source branch by branch:
`if (!code || code === '0x')`, then
`code.toLowerCase().startsWith(DELEGATION_INDICATOR)`, with
`delegatedAddress = '0x' + code.slice(8, 48)`. -/
def checkDelegationCode (address networkName : List Char)
    (code : Option (List Char)) : DelegationResult :=
  match code with
  | none =>
    { isDelegated := false, address := address, network := networkName,
      message := some (str "No code at address (EOA or no delegation)") }
  | some c =>
    if c = [] ∨ c = emptyCodeMarker then
      { isDelegated := false, address := address, network := networkName,
        message := some (str "No code at address (EOA or no delegation)") }
    else if DELEGATION_INDICATOR.isPrefixOf (c.map Char.toLower) then
      { isDelegated := true, address := address, network := networkName,
        delegatedTo := some (str "0x" ++ (c.drop 8).take 40),
        code := some c,
        message := some (str "Address is delegated to " ++
          (str "0x" ++ (c.drop 8).take 40)) }
    else
      { isDelegated := false, address := address, network := networkName,
        code := some c,
        message := some (str "Address has code but no EIP-7702 delegation") }

/-- The function `checkDelegation(address, networkName)`: the unknown-network guard, then
the RPC read (wrapped by the `try`/`catch` that rethrows
`Failed to check delegation: ...`), then the pure code inspection. -/
def checkDelegation (getCode : ChainReader)
    (address networkName : List Char) : Except CheckError DelegationResult :=
  match lookupNetwork networkName with
  | none => Except.error (CheckError.unknownNetwork (unknownNetworkMsg networkName))
  | some _ =>
    match getCode address with
    | Except.error e =>
      Except.error (CheckError.transport (str "Failed to check delegation: " ++ e))
    | Except.ok code => Except.ok (checkDelegationCode address networkName code)

/-- The body of the `for` loop of `checkMultipleDelegations`: check one
address; on a throw, push the error entry carrying
isDelegated false, the address, the network and the error message instead. -/
def batchEntry (getCode : ChainReader)
    (networkName address : List Char) : DelegationResult :=
  match checkDelegation getCode address networkName with
  | Except.ok r => r
  | Except.error e =>
    { isDelegated := false, address := address, network := networkName,
      error := some e.message }

/-- The function `checkMultipleDelegations(addresses, networkName)` (source lines 140–174):
a `for` loop pushing one entry per address onto `results`. -/
def checkMultipleDelegations (getCode : ChainReader)
    (addresses : List (List Char)) (networkName : List Char) :
    List DelegationResult :=
  addresses.foldl (fun results address =>
    results ++ [batchEntry getCode networkName address]) []

/-- The character class of the CLI address regex: a hex digit, upper or
lower case. -/
def isHexDigit (c : Char) : Bool :=
  (decide ('0' ≤ c) && decide (c ≤ '9')) ||
  (decide ('a' ≤ c) && decide (c ≤ 'f')) ||
  (decide ('A' ≤ c) && decide (c ≤ 'F'))

/-- The CLI address validation regex `/^0x[a-fA-F0-9]{40}$/`. -/
def addressPattern (a : List Char) : Bool :=
  match a with
  | '0' :: 'x' :: rest => rest.length == 40 && rest.all isHexDigit
  | _ => false

/-- CLI: is the last argument a known network name
(`Object.keys(networks).includes(lastArg)`)? -/
def cliIsNetwork (args : List (List Char)) : Bool :=
  networkNames.contains (args.getLastD [])

/-- CLI: the selected network name (`lastArg` if it names a network,
otherwise `'mainnet'`). -/
def cliNetworkName (args : List (List Char)) : List Char :=
  if cliIsNetwork args then args.getLastD [] else str "mainnet"

/-- CLI: the address arguments (all arguments, minus a trailing network
name). -/
def cliAddressArgs (args : List (List Char)) : List (List Char) :=
  if cliIsNetwork args then args.dropLast else args

/-- CLI: `validAddresses = addresses.filter(...)` against the address
regex. -/
def validCLIAddresses (args : List (List Char)) : List (List Char) :=
  (cliAddressArgs args).filter addressPattern

/-- The CLI entry point (source lines 178–230), reduced to its exit code:
`1` for no arguments (usage), `1` for no valid addresses, single-address
dispatch exits `1` exactly when the check throws, batch dispatch always
completes (per-address errors are captured inside the loop) and the process
exits `0`. -/
def mainCLI (getCode : ChainReader) (args : List (List Char)) : Nat :=
  if args = [] then 1
  else if validCLIAddresses args = [] then 1
  else if (validCLIAddresses args).length = 1 then
    match checkDelegation getCode ((validCLIAddresses args).getD 0 [])
        (cliNetworkName args) with
    | Except.error _ => 1
    | Except.ok _ => 0
  else 0

/-- Modelled from the spec: a well-formed hex code string is `0x` followed by
an even number of hex digits (spec §4.1 "Inputs" and the `MalformedCodeError`
condition).  The source contains no such check; this predicate only states
claim C3. -/
def isValidHexCode (c : List Char) : Bool :=
  match c with
  | '0' :: 'x' :: rest => rest.all isHexDigit && rest.length % 2 == 0
  | _ => false

/-! ## Helper lemmas -/

/-- A list is a `isPrefixOf`-prefix of itself followed by anything. -/
theorem isPrefixOf_append_self (l m : List Char) : l.isPrefixOf (l ++ m) = true := by
  induction l with
  | nil => simp [List.isPrefixOf]
  | cons a l ih => simp [List.isPrefixOf, ih]

/-- A `isPrefixOf`-prefix is no longer than the whole list. -/
theorem length_le_of_isPrefixOf : ∀ (l m : List Char), l.isPrefixOf m = true → l.length ≤ m.length
  | [], _, _ => by simp
  | _ :: _, [], h => by simp [List.isPrefixOf] at h
  | a :: l, b :: m, h => by
    simp only [List.isPrefixOf, Bool.and_eq_true] at h
    have := length_le_of_isPrefixOf l m h.2
    simp only [List.length_cons]
    omega

/-- Unfolding of the code inspection on a present code string: the branch
structure of the source, made explicit for rewriting. -/
theorem checkDelegationCode_some (a n c : List Char) :
    checkDelegationCode a n (some c) =
      if c = [] ∨ c = emptyCodeMarker then
        { isDelegated := false, address := a, network := n,
          message := some (str "No code at address (EOA or no delegation)") }
      else if DELEGATION_INDICATOR.isPrefixOf (c.map Char.toLower) then
        { isDelegated := true, address := a, network := n,
          delegatedTo := some (str "0x" ++ (c.drop 8).take 40),
          code := some c,
          message := some (str "Address is delegated to " ++
            (str "0x" ++ (c.drop 8).take 40)) }
      else
        { isDelegated := false, address := a, network := n,
          code := some c,
          message := some (str "Address has code but no EIP-7702 delegation") } := rfl

/-- Every branch of the code inspection carries the queried address. -/
theorem checkDelegationCode_address (a n : List Char) (code : Option (List Char)) :
    (checkDelegationCode a n code).address = a := by
  cases code with
  | none => rfl
  | some c =>
    by_cases h1 : c = [] ∨ c = emptyCodeMarker
    · rw [checkDelegationCode_some, if_pos h1]
    · rw [checkDelegationCode_some, if_neg h1]
      by_cases h2 : DELEGATION_INDICATOR.isPrefixOf (c.map Char.toLower) = true
      · rw [if_pos h2]
      · rw [if_neg h2]

/-- Every batch entry carries the address it was produced for. -/
theorem batchEntry_address (g : ChainReader) (n a : List Char) :
    (batchEntry g n a).address = a := by
  unfold batchEntry checkDelegation
  cases lookupNetwork n with
  | none => rfl
  | some cfg =>
    cases g a with
    | error e => rfl
    | ok code => exact checkDelegationCode_address a n code

/-- Folding push-appends over a list from an accumulator is the accumulator
followed by the map. -/
theorem foldl_push_eq_map {α β : Type} (f : α → β) :
    ∀ (as : List α) (acc : List β),
      as.foldl (fun r a => r ++ [f a]) acc = acc ++ as.map f
  | [], acc => by simp
  | a :: as, acc => by
    simp [List.foldl, foldl_push_eq_map f as]

/-- The imperative batch loop builds exactly the map of the per-address
entry over the input list. -/
theorem checkMultipleDelegations_eq_map (g : ChainReader)
    (as : List (List Char)) (n : List Char) :
    checkMultipleDelegations g as n = as.map (batchEntry g n) := by
  unfold checkMultipleDelegations
  simpa using foldl_push_eq_map (batchEntry g n) as []

/-- The network lookup misses exactly outside the four registry keys. -/
theorem lookupNetwork_eq_none_iff (n : List Char) :
    lookupNetwork n = none ↔ n ∉ networkNames := by
  by_cases h1 : n = str "mainnet"
  · subst h1; decide
  · by_cases h2 : n = str "sepolia"
    · subst h2; decide
    · by_cases h3 : n = str "base"
      · subst h3; decide
      · by_cases h4 : n = str "baseSepolia"
        · subst h4; decide
        · simp [lookupNetwork, networkNames, h1, h2, h3, h4]

/-! ## Claim theorems -/

/-- C4: for every input equal to the empty-code marker (the string `0x`, the
empty string, or an absent code), the inspection returns isDelegated = false
with no delegatedTo field and no raw code field, carrying the message
"No code at address (EOA or no delegation)". -/
theorem empty_code_not_delegated (a n : List Char) (code : Option (List Char))
    (h : code = none ∨ code = some [] ∨ code = some (str "0x")) :
    checkDelegationCode a n code =
      { isDelegated := false, address := a, network := n,
        delegatedTo := none, code := none,
        message := some (str "No code at address (EOA or no delegation)") } := by
  rcases h with h | h | h <;> subst h
  · rfl
  · rw [checkDelegationCode_some,
      if_pos (show ([] : List Char) = [] ∨ ([] : List Char) = emptyCodeMarker from Or.inl rfl)]
  · rw [checkDelegationCode_some,
      if_pos (show str "0x" = [] ∨ str "0x" = emptyCodeMarker from Or.inr rfl)]

/-- Witness for C4 at the concrete input of the spec scenario. -/
theorem empty_code_not_delegated_witness :
    checkDelegationCode (str "0xabc") (str "mainnet") (some (str "0x")) =
      { isDelegated := false, address := str "0xabc", network := str "mainnet",
        delegatedTo := none, code := none,
        message := some (str "No code at address (EOA or no delegation)") } :=
  empty_code_not_delegated (str "0xabc") (str "mainnet") (some (str "0x"))
    (Or.inr (Or.inr rfl))

/-- C5: for every non-empty hex code string not starting (case-insensitively)
with ef0100 after the 0x prefix, the inspection returns isDelegated = false,
preserves the full raw code string, and produces no delegatedTo field. -/
theorem code_without_indicator_not_delegated (a n digits : List Char)
    (hne : digits ≠ [])
    (_hhex : digits.all isHexDigit = true)
    (hpre : (str "ef0100").isPrefixOf (digits.map Char.toLower) = false) :
    checkDelegationCode a n (some ('0' :: 'x' :: digits)) =
      { isDelegated := false, address := a, network := n,
        delegatedTo := none, code := some ('0' :: 'x' :: digits),
        message := some (str "Address has code but no EIP-7702 delegation") } := by
  have hcond1 : ¬(('0' :: 'x' :: digits : List Char) = [] ∨
      ('0' :: 'x' :: digits : List Char) = emptyCodeMarker) := by
    simp [emptyCodeMarker]
    exact hne
  have hstr : str "ef0100" = ['e', 'f', '0', '1', '0', '0'] := rfl
  have hcond2 : DELEGATION_INDICATOR.isPrefixOf
      (('0' :: 'x' :: digits : List Char).map Char.toLower) = false := by
    have h0 : Char.toLower '0' = '0' := by decide
    have hx : Char.toLower 'x' = 'x' := by decide
    rw [hstr] at hpre
    simp only [List.map_cons, h0, hx, DELEGATION_INDICATOR, List.isPrefixOf, hpre]
    decide
  rw [checkDelegationCode_some, if_neg hcond1,
    if_neg (by simp only [hcond2]; decide)]

/-- Witness for C5 at the concrete contract-bytecode scenario of the spec. -/
theorem code_without_indicator_not_delegated_witness :
    checkDelegationCode (str "0xabc") (str "mainnet")
        (some ('0' :: 'x' :: str "6080604052")) =
      { isDelegated := false, address := str "0xabc", network := str "mainnet",
        delegatedTo := none, code := some ('0' :: 'x' :: str "6080604052"),
        message := some (str "Address has code but no EIP-7702 delegation") } :=
  code_without_indicator_not_delegated (str "0xabc") (str "mainnet")
    (str "6080604052") (by decide) (by decide) (by decide)

/-- C2: for every hex string of the form 0xef0100 followed by exactly 40 hex
characters (indicator matched case-insensitively), the inspection returns
isDelegated = true and delegatedTo equal to 0x followed by those 40
characters. -/
theorem indicator_code_delegated (a n p rest : List Char)
    (hp : p.map Char.toLower = DELEGATION_INDICATOR)
    (hlen : rest.length = 40)
    (_hhex : rest.all isHexDigit = true) :
    checkDelegationCode a n (some (p ++ rest)) =
      { isDelegated := true, address := a, network := n,
        delegatedTo := some (str "0x" ++ rest),
        code := some (p ++ rest),
        message := some (str "Address is delegated to " ++ (str "0x" ++ rest)) } := by
  have hplen : p.length = 8 := by
    have := congrArg List.length hp
    simpa [DELEGATION_INDICATOR] using this
  have hcond1 : ¬((p ++ rest : List Char) = [] ∨ (p ++ rest : List Char) = emptyCodeMarker) := by
    rintro (h | h)
    · have hl := congrArg List.length h
      simp [hplen, hlen, emptyCodeMarker] at hl
    · have hl := congrArg List.length h
      simp [hplen, hlen, emptyCodeMarker] at hl
  have hcond2 : DELEGATION_INDICATOR.isPrefixOf
      ((p ++ rest : List Char).map Char.toLower) = true := by
    rw [List.map_append, hp]
    exact isPrefixOf_append_self _ _
  have hdrop : (p ++ rest : List Char).drop 8 = rest := by
    rw [← hplen]
    exact List.drop_left p rest
  have htake : rest.take 40 = rest := by
    rw [← hlen]
    exact List.take_length rest
  rw [checkDelegationCode_some, if_neg hcond1, if_pos hcond2, hdrop, htake]

/-- Witness for C2 at the concrete scenario of the spec:
inspecting 0xef0100d8da6bf26964af9d7eed9e03e53415d37aa96045 yields
isDelegated = true and delegatedTo = 0xd8da6bf26964af9d7eed9e03e53415d37aa96045. -/
theorem indicator_code_delegated_witness :
    checkDelegationCode (str "0xabc") (str "mainnet")
        (some (str "0xef0100" ++ str "d8da6bf26964af9d7eed9e03e53415d37aa96045")) =
      { isDelegated := true, address := str "0xabc", network := str "mainnet",
        delegatedTo := some (str "0x" ++ str "d8da6bf26964af9d7eed9e03e53415d37aa96045"),
        code := some (str "0xef0100" ++ str "d8da6bf26964af9d7eed9e03e53415d37aa96045"),
        message := some (str "Address is delegated to " ++
          (str "0x" ++ str "d8da6bf26964af9d7eed9e03e53415d37aa96045")) } :=
  indicator_code_delegated (str "0xabc") (str "mainnet") (str "0xef0100")
    (str "d8da6bf26964af9d7eed9e03e53415d37aa96045")
    (by decide) (by decide) (by decide)

/-- C10: for every code string that case-insensitively starts with 0xef0100
but has fewer than 48 characters, the inspection still returns
isDelegated = true, with delegatedTo equal to 0x followed by the (fewer than
40) characters between positions 8 and 48 of the string — no length or
hex-validity check happens before extraction. -/
theorem short_indicator_code_still_delegated (a n c : List Char)
    (hpre : DELEGATION_INDICATOR.isPrefixOf (c.map Char.toLower) = true)
    (hshort : c.length < 48) :
    (checkDelegationCode a n (some c)).isDelegated = true ∧
    (checkDelegationCode a n (some c)).delegatedTo =
      some (str "0x" ++ (c.drop 8).take 40) ∧
    ((c.drop 8).take 40).length < 40 := by
  have h8 : 8 ≤ c.length := by
    have := length_le_of_isPrefixOf _ _ hpre
    simpa [DELEGATION_INDICATOR] using this
  have hcond1 : ¬(c = [] ∨ c = emptyCodeMarker) := by
    rintro (h | h) <;> subst h <;> simp [emptyCodeMarker] at h8
  rw [checkDelegationCode_some, if_neg hcond1, if_pos hpre]
  refine ⟨rfl, rfl, ?_⟩
  simp only [List.length_take, List.length_drop]
  omega

/-- Witness for C10 at the concrete 10-character code 0xef0100ab: delegated
with the truncated delegatedTo = 0xab. -/
theorem short_indicator_code_still_delegated_witness :
    (checkDelegationCode (str "0xabc") (str "sepolia")
        (some (str "0xef0100ab"))).isDelegated = true ∧
    (checkDelegationCode (str "0xabc") (str "sepolia")
        (some (str "0xef0100ab"))).delegatedTo =
      some (str "0x" ++ ((str "0xef0100ab").drop 8).take 40) ∧
    (((str "0xef0100ab").drop 8).take 40).length < 40 :=
  short_indicator_code_still_delegated (str "0xabc") (str "sepolia")
    (str "0xef0100ab") (by decide) (by decide)

/-- Counterexample to C1 as stated: the valid-hex code 0xef0100ab is accepted
by the check and yields isDelegated = true, yet delegatedTo is 0xab — not
20 bytes (a 42-character 0x-string), because only one byte follows the
indicator. -/
theorem delegation_invariant_counterexample :
    isValidHexCode (str "0xef0100ab") = true ∧
    (checkDelegationCode (str "0xabc") (str "mainnet")
        (some (str "0xef0100ab"))).isDelegated = true ∧
    (checkDelegationCode (str "0xabc") (str "mainnet")
        (some (str "0xef0100ab"))).delegatedTo = some (str "0xab") ∧
    (str "0xab").length ≠ 42 := by
  refine ⟨by decide, ?_, ?_, by decide⟩ <;> decide

/-- C1 (amended): if isDelegated is true the code was present and delegatedTo
is present, equal to 0x followed by the characters at positions 8–48 of the
code; when the code has at least 48 characters these are exactly the 40 hex
characters (20 bytes) immediately following the 3-byte indicator.  If the
code is empty, the empty marker, absent, or does not start with the
indicator, isDelegated is false and delegatedTo is absent. -/
theorem delegation_invariant (a n : List Char) (code : Option (List Char)) :
    ((checkDelegationCode a n code).isDelegated = true →
      ∃ c, code = some c ∧
        (checkDelegationCode a n code).delegatedTo =
          some (str "0x" ++ (c.drop 8).take 40) ∧
        (48 ≤ c.length → (str "0x" ++ (c.drop 8).take 40).length = 42)) ∧
    (∀ c, code = some c →
      DELEGATION_INDICATOR.isPrefixOf (c.map Char.toLower) = false →
      (checkDelegationCode a n code).isDelegated = false ∧
      (checkDelegationCode a n code).delegatedTo = none) ∧
    ((code = none ∨ code = some [] ∨ code = some (str "0x")) →
      (checkDelegationCode a n code).isDelegated = false ∧
      (checkDelegationCode a n code).delegatedTo = none) := by
  cases code with
  | none =>
    refine ⟨?_, ?_, ?_⟩
    · intro h
      simp [checkDelegationCode] at h
    · intro c hc
      exact absurd hc (by simp)
    · intro _
      exact ⟨rfl, rfl⟩
  | some c =>
    by_cases h1 : c = [] ∨ c = emptyCodeMarker
    · have hres : checkDelegationCode a n (some c) =
          { isDelegated := false, address := a, network := n,
            message := some (str "No code at address (EOA or no delegation)") } := by
        rw [checkDelegationCode_some, if_pos h1]
      refine ⟨?_, ?_, ?_⟩
      · intro h
        rw [hres] at h
        simp at h
      · intro c' _ _
        rw [hres]
        exact ⟨rfl, rfl⟩
      · intro _
        rw [hres]
        exact ⟨rfl, rfl⟩
    · by_cases h2 : DELEGATION_INDICATOR.isPrefixOf (c.map Char.toLower) = true
      · have hres : checkDelegationCode a n (some c) =
            { isDelegated := true, address := a, network := n,
              delegatedTo := some (str "0x" ++ (c.drop 8).take 40),
              code := some c,
              message := some (str "Address is delegated to " ++
                (str "0x" ++ (c.drop 8).take 40)) } := by
          rw [checkDelegationCode_some, if_neg h1, if_pos h2]
        refine ⟨?_, ?_, ?_⟩
        · intro _
          refine ⟨c, rfl, by rw [hres], ?_⟩
          intro h48
          simp only [List.length_append, List.length_take, List.length_drop]
          have hxlen : (str "0x").length = 2 := by decide
          rw [hxlen]
          omega
        · intro c' hc' hfalse
          injection hc' with hc'
          subst hc'
          rw [h2] at hfalse
          cases hfalse
        · intro hcase
          exfalso
          rcases hcase with h | h | h
          · cases h
          · injection h with h
            exact h1 (Or.inl h)
          · injection h with h
            exact h1 (Or.inr (h.trans (by decide)))
      · have hres : checkDelegationCode a n (some c) =
            { isDelegated := false, address := a, network := n,
              code := some c,
              message := some (str "Address has code but no EIP-7702 delegation") } := by
          rw [checkDelegationCode_some, if_neg h1, if_neg h2]
        refine ⟨?_, ?_, ?_⟩
        · intro h
          rw [hres] at h
          simp at h
        · intro c' _ _
          rw [hres]
          exact ⟨rfl, rfl⟩
        · intro _
          rw [hres]
          exact ⟨rfl, rfl⟩

/-- Witness for C1 (amended) at the spec's 48-character delegated code: the
first conjunct's hypothesis holds and delegatedTo is the full 20-byte
address. -/
theorem delegation_invariant_witness :
    (checkDelegationCode (str "0xabc") (str "mainnet")
        (some (str "0xef0100d8da6bf26964af9d7eed9e03e53415d37aa96045"))).isDelegated = true ∧
    ∃ c, (some (str "0xef0100d8da6bf26964af9d7eed9e03e53415d37aa96045") :
            Option (List Char)) = some c ∧
      (checkDelegationCode (str "0xabc") (str "mainnet")
        (some (str "0xef0100d8da6bf26964af9d7eed9e03e53415d37aa96045"))).delegatedTo =
          some (str "0x" ++ (c.drop 8).take 40) ∧
      (48 ≤ c.length → (str "0x" ++ (c.drop 8).take 40).length = 42) :=
  ⟨by decide,
   (delegation_invariant (str "0xabc") (str "mainnet")
     (some (str "0xef0100d8da6bf26964af9d7eed9e03e53415d37aa96045"))).1 (by decide)⟩

/-- Counterexample to C3 as stated: 0xzz is not valid hex, yet the inspection
does not fail — there is no MalformedCodeError anywhere in the code; the
input flows into ordinary pattern matching and yields a successful
"has code, not delegated" result. -/
theorem malformed_code_counterexample :
    isValidHexCode (str "0xzz") = false ∧
    checkDelegation (fun _ => Except.ok (some (str "0xzz")))
        (str "0xabc") (str "mainnet") =
      Except.ok
        { isDelegated := false, address := str "0xabc", network := str "mainnet",
          code := some (str "0xzz"),
          message := some (str "Address has code but no EIP-7702 delegation") } :=
  ⟨by decide, rfl⟩

/-- C3 (amended): the inspection performs no hex-format validation at all;
for any known network and any fetched code string — valid hex or not — it
returns a successful structured result built by the same pattern matching,
never a malformed-code failure. -/
theorem no_malformed_code_failure (a n : List Char) (code : Option (List Char))
    (hn : n ∈ networkNames) :
    checkDelegation (fun _ => Except.ok code) a n =
      Except.ok (checkDelegationCode a n code) := by
  have hsome : lookupNetwork n ≠ none := fun h0 =>
    ((lookupNetwork_eq_none_iff n).mp h0) hn
  obtain ⟨cfg, hcfg⟩ := Option.ne_none_iff_exists'.mp hsome
  simp [checkDelegation, hcfg]

/-- Witness for C3 (amended) at the invalid-hex input 0xzz on mainnet. -/
theorem no_malformed_code_failure_witness :
    isValidHexCode (str "0xzz") = false ∧
    checkDelegation (fun _ => Except.ok (some (str "0xzz")))
        (str "0xabc") (str "mainnet") =
      Except.ok (checkDelegationCode (str "0xabc") (str "mainnet")
        (some (str "0xzz"))) :=
  ⟨by decide,
   no_malformed_code_failure (str "0xabc") (str "mainnet")
     (some (str "0xzz")) (by decide)⟩

/-- C8: the single-address check fails with the unknown-network error exactly
when the requested name is outside the registry {mainnet, sepolia, base,
baseSepolia}; when it does, the failure is independent of the chain reader —
it is raised before any chain read — and for a registered name the
unknown-network error can never be produced. -/
theorem unknown_network_fatal (a n : List Char) :
    ((∀ g : ChainReader, checkDelegation g a n =
        Except.error (CheckError.unknownNetwork (unknownNetworkMsg n))) ↔
      n ∉ networkNames) ∧
    (n ∈ networkNames → ∀ (g : ChainReader) (m : List Char),
      checkDelegation g a n ≠ Except.error (CheckError.unknownNetwork m)) := by
  constructor
  · constructor
    · intro hall
      by_contra hn
      have hsome : lookupNetwork n ≠ none := by
        intro h0
        exact ((lookupNetwork_eq_none_iff n).mp h0) hn
      obtain ⟨cfg, hcfg⟩ := Option.ne_none_iff_exists'.mp hsome
      have := hall (fun _ => Except.ok none)
      simp [checkDelegation, hcfg] at this
    · intro hn g
      have h0 : lookupNetwork n = none := (lookupNetwork_eq_none_iff n).mpr hn
      simp [checkDelegation, h0]
  · intro hn g m
    have hsome : lookupNetwork n ≠ none := by
      intro h0
      exact ((lookupNetwork_eq_none_iff n).mp h0) hn
    obtain ⟨cfg, hcfg⟩ := Option.ne_none_iff_exists'.mp hsome
    cases hg : g a with
    | error e =>
      intro hcontra
      simp [checkDelegation, hcfg, hg] at hcontra
    | ok code =>
      intro hcontra
      simp [checkDelegation, hcfg, hg] at hcontra

/-- Witness for C8: polygon is rejected up front regardless of the reader;
mainnet never produces the unknown-network error. -/
theorem unknown_network_fatal_witness :
    (checkDelegation (fun _ => Except.ok none) (str "0xabc") (str "polygon") =
      Except.error (CheckError.unknownNetwork (unknownNetworkMsg (str "polygon")))) ∧
    (checkDelegation (fun _ => Except.ok none) (str "0xabc") (str "mainnet") ≠
      Except.error (CheckError.unknownNetwork (str "boom"))) :=
  ⟨((unknown_network_fatal (str "0xabc") (str "polygon")).1.mpr (by decide))
      (fun _ => Except.ok none),
   (unknown_network_fatal (str "0xabc") (str "mainnet")).2 (by decide)
      (fun _ => Except.ok none) (str "boom")⟩

/-- C6: for every ordered input list of N addresses, the batch check returns
a list of length N whose i-th result carries the i-th input address. -/
theorem batch_order_preserved (g : ChainReader) (as : List (List Char)) (n : List Char)
    (i : Nat) (addr : List Char) (hi : as[i]? = some addr) :
    (checkMultipleDelegations g as n).length = as.length ∧
    ∃ r, (checkMultipleDelegations g as n)[i]? = some r ∧ r.address = addr := by
  have hmap := checkMultipleDelegations_eq_map g as n
  refine ⟨by rw [hmap, List.length_map], ⟨batchEntry g n addr, ?_, batchEntry_address g n addr⟩⟩
  rw [hmap, List.getElem?_map (batchEntry g n) as i, hi]
  rfl

/-- Witness for C6: a three-address batch where the reader fails on the first
address still yields three entries, the second carrying the second input. -/
theorem batch_order_preserved_witness :
    (checkMultipleDelegations
        (fun a => if a = str "0xa" then Except.error (str "boom")
                  else Except.ok (some (str "0x")))
        [str "0xa", str "0xb", str "0xc"] (str "mainnet")).length =
      ([str "0xa", str "0xb", str "0xc"] : List (List Char)).length ∧
    ∃ r, (checkMultipleDelegations
        (fun a => if a = str "0xa" then Except.error (str "boom")
                  else Except.ok (some (str "0x")))
        [str "0xa", str "0xb", str "0xc"] (str "mainnet"))[1]? = some r ∧
      r.address = str "0xb" :=
  batch_order_preserved
    (fun a => if a = str "0xa" then Except.error (str "boom")
              else Except.ok (some (str "0x")))
    [str "0xa", str "0xb", str "0xc"] (str "mainnet") 1 (str "0xb") (by decide)

/-- C7: each batch entry depends only on its own address: the i-th output is
exactly the single-address check of the i-th input, with a successful check
passed through unchanged and a thrown error captured into that entry's error
field instead of aborting the batch. -/
theorem batch_partial_failure (g : ChainReader) (n : List Char)
    (as : List (List Char)) (i : Nat) (addr : List Char)
    (hi : as[i]? = some addr) :
    (checkMultipleDelegations g as n)[i]? = some (batchEntry g n addr) ∧
    (∀ r, checkDelegation g addr n = Except.ok r → batchEntry g n addr = r) ∧
    (∀ e, checkDelegation g addr n = Except.error e →
      batchEntry g n addr =
        { isDelegated := false, address := addr, network := n,
          error := some e.message }) := by
  refine ⟨?_, ?_, ?_⟩
  · rw [checkMultipleDelegations_eq_map, List.getElem?_map (batchEntry g n) as i, hi]
    rfl
  · intro r h
    unfold batchEntry
    rw [h]
  · intro e h
    unfold batchEntry
    rw [h]

/-- Witness for C7: in a three-address batch whose reader fails only on the
middle address, entry 1 is the captured transport error while the check of
the middle address alone throws the same error. -/
theorem batch_partial_failure_witness :
    (checkMultipleDelegations
        (fun a => if a = str "0xb" then Except.error (str "boom")
                  else Except.ok (some (str "0x")))
        [str "0xa", str "0xb", str "0xc"] (str "mainnet"))[1]? =
      some (batchEntry
        (fun a => if a = str "0xb" then Except.error (str "boom")
                  else Except.ok (some (str "0x")))
        (str "mainnet") (str "0xb")) ∧
    (∀ r, checkDelegation
        (fun a => if a = str "0xb" then Except.error (str "boom")
                  else Except.ok (some (str "0x")))
        (str "0xb") (str "mainnet") = Except.ok r →
      batchEntry
        (fun a => if a = str "0xb" then Except.error (str "boom")
                  else Except.ok (some (str "0x")))
        (str "mainnet") (str "0xb") = r) ∧
    (∀ e, checkDelegation
        (fun a => if a = str "0xb" then Except.error (str "boom")
                  else Except.ok (some (str "0x")))
        (str "0xb") (str "mainnet") = Except.error e →
      batchEntry
        (fun a => if a = str "0xb" then Except.error (str "boom")
                  else Except.ok (some (str "0x")))
        (str "mainnet") (str "0xb") =
        { isDelegated := false, address := str "0xb", network := str "mainnet",
          error := some e.message }) :=
  batch_partial_failure
    (fun a => if a = str "0xb" then Except.error (str "boom")
              else Except.ok (some (str "0x")))
    (str "mainnet") [str "0xa", str "0xb", str "0xc"] 1 (str "0xb") (by decide)

/-- C9: address arguments are validated by the 0x-plus-40-hex regex with
failures discarded, and the CLI exits non-zero exactly when no valid address
remains or the (single-address) dispatched check throws; per-address errors
in a batch never make the exit code non-zero. -/
theorem cli_exit_nonzero_iff (g : ChainReader) (args : List (List Char)) :
    mainCLI g args ≠ 0 ↔
      (validCLIAddresses args = [] ∨
       ((validCLIAddresses args).length = 1 ∧
        ∃ e, checkDelegation g ((validCLIAddresses args).getD 0 [])
          (cliNetworkName args) = Except.error e)) := by
  unfold mainCLI
  by_cases h0 : args = []
  · subst h0
    rw [if_pos rfl]
    have hv : validCLIAddresses ([] : List (List Char)) = [] := rfl
    simp [hv]
  · rw [if_neg h0]
    by_cases h1 : validCLIAddresses args = []
    · rw [if_pos h1]
      simp [h1]
    · rw [if_neg h1]
      by_cases h2 : (validCLIAddresses args).length = 1
      · rw [if_pos h2]
        cases hc : checkDelegation g ((validCLIAddresses args).getD 0 [])
            (cliNetworkName args) with
        | error e =>
          exact ⟨fun _ => Or.inr ⟨h2, ⟨e, rfl⟩⟩, fun _ => one_ne_zero⟩
        | ok r =>
          constructor
          · intro h
            exact absurd rfl h
          · rintro (h | ⟨-, e, he⟩)
            · exact absurd h h1
            · exact Except.noConfusion he
      · rw [if_neg h2]
        constructor
        · intro h
          exact absurd rfl h
        · rintro (h | ⟨hl, -⟩)
          · exact absurd h h1
          · exact absurd hl h2

/-- Witness for C9: with only an invalid address argument the CLI exits
non-zero, because the validation filter leaves no valid address. -/
theorem cli_exit_nonzero_iff_witness :
    mainCLI (fun _ => Except.ok (some (str "0x"))) [str "0xnothex"] ≠ 0 ↔
      (validCLIAddresses [str "0xnothex"] = [] ∨
       ((validCLIAddresses [str "0xnothex"]).length = 1 ∧
        ∃ e, checkDelegation (fun _ => Except.ok (some (str "0x")))
          ((validCLIAddresses [str "0xnothex"]).getD 0 [])
          (cliNetworkName [str "0xnothex"]) = Except.error e)) :=
  cli_exit_nonzero_iff (fun _ => Except.ok (some (str "0x"))) [str "0xnothex"]
